import Mathlib

/-!
Verification of the fault-decision engine of the bad-proxy server
(`cmd/server/main.go`).

Shallow embedding conventions:
* Go `float64` probabilities are embedded as `ℚ`; Go's `int(x)` conversion
  on the non-negative values that occur here is `Int.floor`.
* The per-request decision-and-record sequence of `proxyRequest`
  (lines 257-325) is the function `proxyStep`; the random draws
  (`rand.Float64`, `rand.IntN`) are explicit parameters.
* `rand.IntN n` applied to an arbitrary seed `r` is modelled as `r % n`.
-/

set_option maxHeartbeats 1600000
set_option maxRecDepth 8000

namespace BadProxy

/-- The `CurrentRates` map of `ErrorStats` (Go `map[string]float64`),
whose keys are exactly "disconnect", "500", "400", "no_backend",
"corrupt"; a missing key reads as 0. -/
structure CurrentRates where
  disconnect : ℚ
  rate500 : ℚ
  rate400 : ℚ
  noBackend : ℚ
  corrupt : ℚ
deriving DecidableEq

/-- The `ErrorStats` record of `main.go` (lines 47-58). -/
structure ErrorStats where
  total : ℕ
  successCount : ℕ
  noBackendCount : ℕ
  error500Count : ℕ
  error400Count : ℕ
  disconnectCount : ℕ
  corruptCount : ℕ
  currentRates : CurrentRates
  recentErrors : List String
  recentTotal : ℕ
deriving DecidableEq

/-- One step of the cumulative-probability accumulator: Go only executes
`cumulativeProb += prob` inside a `prob > 0` guard (both in the
probabilistic path, lines 281-319, and in `selectForcedErrorType`,
lines 594-599, where `prob <= 0` is skipped by `continue`). -/
def cumAdd (c p : ℚ) : ℚ :=
  if 0 < p then c + p else c

/-- The backward loop body of `countSuccessiveNoErrors` (lines 547-557):
the Go loop visits indices `len-1, len-2, ...`, i.e. the reversed list
front to back, counting `""` entries and breaking at the first
non-empty one. -/
def countNoErrorsFromEnd : List String → ℕ
  | [] => 0
  | e :: rest => if e = "" then countNoErrorsFromEnd rest + 1 else 0

/-- Function `countSuccessiveNoErrors` (lines 547-557). -/
def countSuccessiveNoErrors (recentErrors : List String) : ℕ :=
  countNoErrorsFromEnd recentErrors.reverse

/-- Function `calculateMaxAllowedSuccessive` (lines 559-580).  The Go conversion
`int(5.0 / totalErrorProb)` is reached only with `0 < total < 1`, where
the quotient is positive, so truncation toward zero is `Int.floor`. -/
def calculateMaxAllowedSuccessive (d e5 e4 nb co : ℚ) : ℤ :=
  if d + e5 + e4 + nb + co ≤ 0 then 0
  else if 1 ≤ d + e5 + e4 + nb + co then 1
  else if ⌊(5 : ℚ) / (d + e5 + e4 + nb + co)⌋ < 5 then 5
  else if 20 < ⌊(5 : ℚ) / (d + e5 + e4 + nb + co)⌋ then 20
  else ⌊(5 : ℚ) / (d + e5 + e4 + nb + co)⌋

/-- Function `selectForcedErrorType` (lines 582-612), the two loops unrolled over
the fixed arrays `errorTypes`/`probabilities`; `u` is the
`rand.Float64()` draw. -/
def selectForcedErrorType (d e5 e4 nb co u : ℚ) : String :=
  if d + e5 + e4 + nb + co ≤ 0 then ""
  else if 0 < d ∧ u * (d + e5 + e4 + nb + co) < cumAdd 0 d then "disconnect"
  else if 0 < e5 ∧ u * (d + e5 + e4 + nb + co) < cumAdd (cumAdd 0 d) e5 then "error500"
  else if 0 < e4 ∧ u * (d + e5 + e4 + nb + co) < cumAdd (cumAdd (cumAdd 0 d) e5) e4 then "error400"
  else if 0 < nb ∧ u * (d + e5 + e4 + nb + co) < cumAdd (cumAdd (cumAdd (cumAdd 0 d) e5) e4) nb then "no_backend"
  else if 0 < co ∧ u * (d + e5 + e4 + nb + co) < cumAdd (cumAdd (cumAdd (cumAdd (cumAdd 0 d) e5) e4) nb) co then "corrupt"
  else if 0 < co then "corrupt"
  else if 0 < nb then "no_backend"
  else if 0 < e4 then "error400"
  else if 0 < e5 then "error500"
  else if 0 < d then "disconnect"
  else ""

/-- The probabilistic selection of `proxyRequest` (lines 277-320): the
five kinds in fixed order with a running cumulative probability; `u` is
the `rand.Float64()` draw. -/
def selectRandomErrorType (d e5 e4 nb co u : ℚ) : String :=
  if 0 < d ∧ u < cumAdd 0 d then "disconnect"
  else if 0 < e5 ∧ u < cumAdd (cumAdd 0 d) e5 then "error500"
  else if 0 < e4 ∧ u < cumAdd (cumAdd (cumAdd 0 d) e5) e4 then "error400"
  else if 0 < nb ∧ u < cumAdd (cumAdd (cumAdd (cumAdd 0 d) e5) e4) nb then "no_backend"
  else if 0 < co ∧ u < cumAdd (cumAdd (cumAdd (cumAdd (cumAdd 0 d) e5) e4) nb) co then "corrupt"
  else ""

/-- The decision part of `proxyRequest` (lines 264-320): the forced-error
override (lines 267-275) followed, when it did not fire, by the
probabilistic selection.  `recentErrors` is the window as read before
this request's slot is written. -/
def decideErrorType (d e5 e4 nb co : ℚ) (forceErrors : Bool)
    (recentErrors : List String) (u : ℚ) : String :=
  if forceErrors = true ∧
      calculateMaxAllowedSuccessive d e5 e4 nb co ≤ (countSuccessiveNoErrors recentErrors : ℤ) ∧
      0 < calculateMaxAllowedSuccessive d e5 e4 nb co then
    selectForcedErrorType d e5 e4 nb co u
  else
    selectRandomErrorType d e5 e4 nb co u

/-- Function `updateErrorStats` (lines 490-505). -/
def updateErrorStats (errorType : String) (stats : ErrorStats) : ErrorStats :=
  if errorType = "disconnect" then { stats with disconnectCount := stats.disconnectCount + 1 }
  else if errorType = "error500" then { stats with error500Count := stats.error500Count + 1 }
  else if errorType = "error400" then { stats with error400Count := stats.error400Count + 1 }
  else if errorType = "no_backend" then { stats with noBackendCount := stats.noBackendCount + 1 }
  else if errorType = "corrupt" then { stats with corruptCount := stats.corruptCount + 1 }
  else if errorType = "" then { stats with successCount := stats.successCount + 1 }
  else stats

/-- Function `updateErrorRates` (lines 507-545). -/
def updateErrorRates (stats : ErrorStats) (windowSize : ℕ) : ErrorStats :=
  let recentCount := if windowSize < stats.total then windowSize else stats.total
  if recentCount = 0 then { stats with recentTotal := recentCount }
  else
    { stats with
      recentTotal := recentCount
      currentRates :=
        { disconnect := ((stats.recentErrors.filter (fun e => e = "disconnect")).length : ℚ) / (recentCount : ℚ)
          rate500 := ((stats.recentErrors.filter (fun e => e = "error500")).length : ℚ) / (recentCount : ℚ)
          rate400 := ((stats.recentErrors.filter (fun e => e = "error400")).length : ℚ) / (recentCount : ℚ)
          noBackend := ((stats.recentErrors.filter (fun e => e = "no_backend")).length : ℚ) / (recentCount : ℚ)
          corrupt := ((stats.recentErrors.filter (fun e => e = "corrupt")).length : ℚ) / (recentCount : ℚ) } }

/-- The slot index written by a request: `recentPos := stats.Total %
windowSize` (computed after `stats.Total++`), clamped to the last index
when it falls outside the actual slice (lines 259-262). -/
def recentPos (total ws len : ℕ) : ℕ :=
  if len ≤ total % ws then len - 1 else total % ws

/-- The tracker mutation performed by one admitted request
(`proxyRequest` lines 257-325): increment `Total`, decide, write the
slot, update counters, update rates. -/
def proxyStep (d e5 e4 nb co : ℚ) (fe : Bool) (ws : ℕ)
    (stats : ErrorStats) (u : ℚ) : ErrorStats :=
  updateErrorRates
    (updateErrorStats (decideErrorType d e5 e4 nb co fe stats.recentErrors u)
      { stats with
        total := stats.total + 1
        recentErrors :=
          stats.recentErrors.set
            (recentPos (stats.total + 1) ws stats.recentErrors.length)
            (decideErrorType d e5 e4 nb co fe stats.recentErrors u) })
    ws

/-- Externally visible outcome of `proxyRequest` as far as the decision
engine is concerned: a 405 rejection before the engine runs, or a
decided fault label. -/
inductive ProxyOutcome
  | methodNotAllowed
  | decided (errorType : String)
deriving DecidableEq

/-- Handler `proxyRequest` (lines 239-243 plus the decision): any method other
than GET and POST is rejected with 405 before the stats lock is taken,
leaving the tracker untouched. -/
def proxyRequest (method : String) (d e5 e4 nb co : ℚ) (fe : Bool)
    (ws : ℕ) (stats : ErrorStats) (u : ℚ) : ProxyOutcome × ErrorStats :=
  if method ≠ "GET" ∧ method ≠ "POST" then
    (ProxyOutcome.methodNotAllowed, stats)
  else
    (ProxyOutcome.decided (decideErrorType d e5 e4 nb co fe stats.recentErrors u),
      proxyStep d e5 e4 nb co fe ws stats u)

/-- The process-start statistics value (lines 74-77): zero counters, an
empty rates map and `make([]string, 100)`. -/
def initialStats : ErrorStats :=
  { total := 0, successCount := 0, noBackendCount := 0, error500Count := 0
    error400Count := 0, disconnectCount := 0, corruptCount := 0
    currentRates := ⟨0, 0, 0, 0, 0⟩
    recentErrors := List.replicate 100 ""
    recentTotal := 0 }

/-- The `GET /reset-stats` handler (lines 155-166): the whole stats
record is replaced by a fresh zero value whose window has
`config.WindowSize` empty slots. -/
def resetStats (windowSize : ℕ) : ErrorStats :=
  { total := 0, successCount := 0, noBackendCount := 0, error500Count := 0
    error400Count := 0, disconnectCount := 0, corruptCount := 0
    currentRates := ⟨0, 0, 0, 0, 0⟩
    recentErrors := List.replicate windowSize ""
    recentTotal := 0 }

/-- Window-size normalization in the `POST /config` handler
(lines 175-177). -/
def normalizeWindowSize (n : ℤ) : ℤ :=
  if n ≤ 0 then 100 else n

/-- Effect of the `POST /config` handler on the statistics tracker
(lines 179-189): when the (normalized) window size changed, only
`RecentErrors` is reallocated; nothing else in `stats` is touched. -/
def applyConfigUpdate (oldWindowSize newWindowSize : ℕ)
    (stats : ErrorStats) : ErrorStats :=
  if oldWindowSize ≠ newWindowSize then
    { stats with recentErrors := List.replicate newWindowSize "" }
  else stats

/-- Value `minLength` of the corrupt transform (lines 457-462):
`int(float64(L) * 0.1)`, raised to 1 when below 1. -/
def corruptMinLength (originalLength : ℕ) : ℕ :=
  if (⌊(originalLength : ℚ) * (1 / 10)⌋).toNat < 1 then 1
  else (⌊(originalLength : ℚ) * (1 / 10)⌋).toNat

/-- Value `maxLength` of the corrupt transform (lines 458-466):
`int(float64(L) * 0.9)`, bumped to `minLength + 1` when not above
`minLength`. -/
def corruptMaxLength (originalLength : ℕ) : ℕ :=
  if (⌊(originalLength : ℚ) * (9 / 10)⌋).toNat ≤ corruptMinLength originalLength then
    corruptMinLength originalLength + 1
  else (⌊(originalLength : ℚ) * (9 / 10)⌋).toNat

/-- Value `truncatedLength` of the corrupt transform (lines 468-471), with the
`rand.IntN (maxLength-minLength)` draw modelled as `r % (maxLength -
minLength)` for an arbitrary seed `r`. -/
def corruptTruncatedLength (originalLength r : ℕ) : ℕ :=
  if corruptMinLength originalLength < corruptMaxLength originalLength then
    corruptMinLength originalLength +
      r % (corruptMaxLength originalLength - corruptMinLength originalLength)
  else corruptMinLength originalLength

/-- Modelled from the spec (section 4.2, `recentStreak`): scan backward
starting at index `i` of the window, counting consecutive no-fault
slots until a fault slot or the window start is hit. -/
def scanBackCount (errs : List String) : ℕ → ℕ
  | 0 => if errs.getD 0 "" = "" then 1 else 0
  | i + 1 => if errs.getD (i + 1) "" = "" then scanBackCount errs i + 1 else 0

/-- Modelled from the spec (section 4.2, `recentStreak`): the count of
consecutive no-fault slots scanning backward from the newest slot (the
slot of the most recently assigned ordinal, index `total % windowSize`)
until a fault slot or window start is hit. -/
def recentStreakSpec (stats : ErrorStats) (windowSize : ℕ) : ℕ :=
  scanBackCount stats.recentErrors (stats.total % windowSize)

/-- The accounting invariant of claim C10: each recorded request is
counted exactly once, either as a success or under its fault kind. -/
def statsInvariant (s : ErrorStats) : Prop :=
  s.total = s.successCount + s.disconnectCount + s.error500Count +
    s.error400Count + s.noBackendCount + s.corruptCount

/-! ### Helper lemmas -/

theorem cumAdd_of_nonneg {p : ℚ} (hp : 0 ≤ p) : ∀ c : ℚ, cumAdd c p = c + p := by
  intro c
  rcases hp.eq_or_lt with rfl | h
  · simp [cumAdd]
  · simp [cumAdd, h]

theorem le_add_of_notFired {c p u : ℚ} (hp : 0 ≤ p) (hc : c ≤ u)
    (h : ¬(0 < p ∧ u < c + p)) : c + p ≤ u := by
  rcases hp.eq_or_lt with rfl | hp0
  · simpa using hc
  · by_contra hlt
    exact h ⟨hp0, by linarith⟩

theorem countNoErrorsFromEnd_replicate (n : ℕ) :
    countNoErrorsFromEnd (List.replicate n "") = n := by
  induction n with
  | zero => rfl
  | succ k ih => simp [List.replicate_succ, countNoErrorsFromEnd, ih]

theorem countSuccessiveNoErrors_replicate (n : ℕ) :
    countSuccessiveNoErrors (List.replicate n "") = n := by
  rw [countSuccessiveNoErrors, List.reverse_replicate, countNoErrorsFromEnd_replicate]

theorem countNoErrorsFromEnd_split (l : List String) :
    ∃ suf, l = List.replicate (countNoErrorsFromEnd l) "" ++ suf ∧
      (suf = [] ∨ suf.head? ≠ some "") := by
  induction l with
  | nil => exact ⟨[], by simp [countNoErrorsFromEnd], Or.inl rfl⟩
  | cons e rest ih =>
    by_cases he : e = ""
    · subst he
      obtain ⟨suf, h1, h2⟩ := ih
      refine ⟨suf, ?_, h2⟩
      simp only [countNoErrorsFromEnd, if_pos rfl, List.replicate_succ, List.cons_append]
      exact congrArg _ h1
    · exact ⟨e :: rest, by simp [countNoErrorsFromEnd, he], Or.inr (by simp [he])⟩

theorem updateErrorRates_total (s : ErrorStats) (ws : ℕ) :
    (updateErrorRates s ws).total = s.total := by
  simp only [updateErrorRates]
  split <;> split <;> rfl

theorem updateErrorRates_recentErrors (s : ErrorStats) (ws : ℕ) :
    (updateErrorRates s ws).recentErrors = s.recentErrors := by
  simp only [updateErrorRates]
  split <;> split <;> rfl

theorem updateErrorRates_successCount (s : ErrorStats) (ws : ℕ) :
    (updateErrorRates s ws).successCount = s.successCount := by
  simp only [updateErrorRates]
  split <;> split <;> rfl

theorem updateErrorRates_disconnectCount (s : ErrorStats) (ws : ℕ) :
    (updateErrorRates s ws).disconnectCount = s.disconnectCount := by
  simp only [updateErrorRates]
  split <;> split <;> rfl

theorem updateErrorRates_error500Count (s : ErrorStats) (ws : ℕ) :
    (updateErrorRates s ws).error500Count = s.error500Count := by
  simp only [updateErrorRates]
  split <;> split <;> rfl

theorem updateErrorRates_error400Count (s : ErrorStats) (ws : ℕ) :
    (updateErrorRates s ws).error400Count = s.error400Count := by
  simp only [updateErrorRates]
  split <;> split <;> rfl

theorem updateErrorRates_noBackendCount (s : ErrorStats) (ws : ℕ) :
    (updateErrorRates s ws).noBackendCount = s.noBackendCount := by
  simp only [updateErrorRates]
  split <;> split <;> rfl

theorem updateErrorRates_corruptCount (s : ErrorStats) (ws : ℕ) :
    (updateErrorRates s ws).corruptCount = s.corruptCount := by
  simp only [updateErrorRates]
  split <;> split <;> rfl

theorem updateErrorRates_recentTotal (s : ErrorStats) (ws : ℕ) :
    (updateErrorRates s ws).recentTotal = if ws < s.total then ws else s.total := by
  simp only [updateErrorRates]
  split <;> split <;> rfl

theorem updateErrorStats_total (t : String) (s : ErrorStats) :
    (updateErrorStats t s).total = s.total := by
  simp only [updateErrorStats]
  split_ifs <;> rfl

theorem updateErrorStats_recentErrors (t : String) (s : ErrorStats) :
    (updateErrorStats t s).recentErrors = s.recentErrors := by
  simp only [updateErrorStats]
  split_ifs <;> rfl

theorem proxyStep_total (d e5 e4 nb co : ℚ) (fe : Bool) (ws : ℕ)
    (stats : ErrorStats) (u : ℚ) :
    (proxyStep d e5 e4 nb co fe ws stats u).total = stats.total + 1 := by
  rw [proxyStep, updateErrorRates_total, updateErrorStats_total]

theorem proxyStep_recentErrors (d e5 e4 nb co : ℚ) (fe : Bool) (ws : ℕ)
    (stats : ErrorStats) (u : ℚ) :
    (proxyStep d e5 e4 nb co fe ws stats u).recentErrors =
      stats.recentErrors.set (recentPos (stats.total + 1) ws stats.recentErrors.length)
        (decideErrorType d e5 e4 nb co fe stats.recentErrors u) := by
  rw [proxyStep, updateErrorRates_recentErrors, updateErrorStats_recentErrors]

theorem decideErrorType_not_forced (d e5 e4 nb co : ℚ) (errs : List String) (u : ℚ) :
    decideErrorType d e5 e4 nb co false errs u = selectRandomErrorType d e5 e4 nb co u := by
  simp [decideErrorType]

theorem selectRandom_sums (d e5 e4 nb co u : ℚ) (hd : 0 ≤ d) (he5 : 0 ≤ e5)
    (he4 : 0 ≤ e4) (hnb : 0 ≤ nb) (hco : 0 ≤ co) :
    selectRandomErrorType d e5 e4 nb co u =
      if 0 < d ∧ u < d then "disconnect"
      else if 0 < e5 ∧ u < d + e5 then "error500"
      else if 0 < e4 ∧ u < d + e5 + e4 then "error400"
      else if 0 < nb ∧ u < d + e5 + e4 + nb then "no_backend"
      else if 0 < co ∧ u < d + e5 + e4 + nb + co then "corrupt"
      else "" := by
  simp only [selectRandomErrorType, cumAdd_of_nonneg hd, cumAdd_of_nonneg he5,
    cumAdd_of_nonneg he4, cumAdd_of_nonneg hnb, cumAdd_of_nonneg hco, zero_add]

theorem chain1 {d u : ℚ} (hd : 0 ≤ d) (hu : 0 ≤ u)
    (h1 : ¬(0 < d ∧ u < d)) : d ≤ u := by
  have h := le_add_of_notFired (c := 0) hd hu (by simpa using h1)
  simpa using h

theorem chain2 {d e5 u : ℚ} (hd : 0 ≤ d) (he5 : 0 ≤ e5) (hu : 0 ≤ u)
    (h1 : ¬(0 < d ∧ u < d)) (h2 : ¬(0 < e5 ∧ u < d + e5)) : d + e5 ≤ u :=
  le_add_of_notFired he5 (chain1 hd hu h1) h2

theorem chain3 {d e5 e4 u : ℚ} (hd : 0 ≤ d) (he5 : 0 ≤ e5) (he4 : 0 ≤ e4) (hu : 0 ≤ u)
    (h1 : ¬(0 < d ∧ u < d)) (h2 : ¬(0 < e5 ∧ u < d + e5))
    (h3 : ¬(0 < e4 ∧ u < d + e5 + e4)) : d + e5 + e4 ≤ u :=
  le_add_of_notFired he4 (chain2 hd he5 hu h1 h2) h3

theorem chain4 {d e5 e4 nb u : ℚ} (hd : 0 ≤ d) (he5 : 0 ≤ e5) (he4 : 0 ≤ e4)
    (hnb : 0 ≤ nb) (hu : 0 ≤ u)
    (h1 : ¬(0 < d ∧ u < d)) (h2 : ¬(0 < e5 ∧ u < d + e5))
    (h3 : ¬(0 < e4 ∧ u < d + e5 + e4))
    (h4 : ¬(0 < nb ∧ u < d + e5 + e4 + nb)) : d + e5 + e4 + nb ≤ u :=
  le_add_of_notFired hnb (chain3 hd he5 he4 hu h1 h2 h3) h4

theorem chain5 {d e5 e4 nb co u : ℚ} (hd : 0 ≤ d) (he5 : 0 ≤ e5) (he4 : 0 ≤ e4)
    (hnb : 0 ≤ nb) (hco : 0 ≤ co) (hu : 0 ≤ u)
    (h1 : ¬(0 < d ∧ u < d)) (h2 : ¬(0 < e5 ∧ u < d + e5))
    (h3 : ¬(0 < e4 ∧ u < d + e5 + e4))
    (h4 : ¬(0 < nb ∧ u < d + e5 + e4 + nb))
    (h5 : ¬(0 < co ∧ u < d + e5 + e4 + nb + co)) : d + e5 + e4 + nb + co ≤ u :=
  le_add_of_notFired hco (chain4 hd he5 he4 hnb hu h1 h2 h3 h4) h5

theorem selectRandom_eq_disconnect_iff (d e5 e4 nb co u : ℚ) (hd : 0 ≤ d) (he5 : 0 ≤ e5)
    (he4 : 0 ≤ e4) (hnb : 0 ≤ nb) (hco : 0 ≤ co) (hu : 0 ≤ u) :
    selectRandomErrorType d e5 e4 nb co u = "disconnect" ↔ u < d := by
  rw [selectRandom_sums d e5 e4 nb co u hd he5 he4 hnb hco]
  constructor
  · intro h
    split_ifs at h with h1 h2 h3 h4 h5
    · exact h1.2
    all_goals exact absurd h (by decide)
  · intro h
    rw [if_pos ⟨lt_of_le_of_lt hu h, h⟩]

theorem selectRandom_eq_error500_iff (d e5 e4 nb co u : ℚ) (hd : 0 ≤ d) (he5 : 0 ≤ e5)
    (he4 : 0 ≤ e4) (hnb : 0 ≤ nb) (hco : 0 ≤ co) (hu : 0 ≤ u) :
    selectRandomErrorType d e5 e4 nb co u = "error500" ↔ d ≤ u ∧ u < d + e5 := by
  rw [selectRandom_sums d e5 e4 nb co u hd he5 he4 hnb hco]
  constructor
  · intro h
    split_ifs at h with h1 h2 h3 h4 h5
    · exact absurd h (by decide)
    · exact ⟨chain1 hd hu h1, h2.2⟩
    all_goals exact absurd h (by decide)
  · rintro ⟨ha, hb⟩
    rw [if_neg (by rintro ⟨-, hx⟩; linarith), if_pos ⟨by linarith, hb⟩]

theorem selectRandom_eq_error400_iff (d e5 e4 nb co u : ℚ) (hd : 0 ≤ d) (he5 : 0 ≤ e5)
    (he4 : 0 ≤ e4) (hnb : 0 ≤ nb) (hco : 0 ≤ co) (hu : 0 ≤ u) :
    selectRandomErrorType d e5 e4 nb co u = "error400" ↔ d + e5 ≤ u ∧ u < d + e5 + e4 := by
  rw [selectRandom_sums d e5 e4 nb co u hd he5 he4 hnb hco]
  constructor
  · intro h
    split_ifs at h with h1 h2 h3 h4 h5
    · exact absurd h (by decide)
    · exact absurd h (by decide)
    · exact ⟨chain2 hd he5 hu h1 h2, h3.2⟩
    all_goals exact absurd h (by decide)
  · rintro ⟨ha, hb⟩
    rw [if_neg (by rintro ⟨-, hx⟩; linarith), if_neg (by rintro ⟨-, hx⟩; linarith),
      if_pos ⟨by linarith, hb⟩]

theorem selectRandom_eq_noBackend_iff (d e5 e4 nb co u : ℚ) (hd : 0 ≤ d) (he5 : 0 ≤ e5)
    (he4 : 0 ≤ e4) (hnb : 0 ≤ nb) (hco : 0 ≤ co) (hu : 0 ≤ u) :
    selectRandomErrorType d e5 e4 nb co u = "no_backend" ↔
      d + e5 + e4 ≤ u ∧ u < d + e5 + e4 + nb := by
  rw [selectRandom_sums d e5 e4 nb co u hd he5 he4 hnb hco]
  constructor
  · intro h
    split_ifs at h with h1 h2 h3 h4 h5
    · exact absurd h (by decide)
    · exact absurd h (by decide)
    · exact absurd h (by decide)
    · exact ⟨chain3 hd he5 he4 hu h1 h2 h3, h4.2⟩
    all_goals exact absurd h (by decide)
  · rintro ⟨ha, hb⟩
    rw [if_neg (by rintro ⟨-, hx⟩; linarith), if_neg (by rintro ⟨-, hx⟩; linarith),
      if_neg (by rintro ⟨-, hx⟩; linarith), if_pos ⟨by linarith, hb⟩]

theorem selectRandom_eq_corrupt_iff (d e5 e4 nb co u : ℚ) (hd : 0 ≤ d) (he5 : 0 ≤ e5)
    (he4 : 0 ≤ e4) (hnb : 0 ≤ nb) (hco : 0 ≤ co) (hu : 0 ≤ u) :
    selectRandomErrorType d e5 e4 nb co u = "corrupt" ↔
      d + e5 + e4 + nb ≤ u ∧ u < d + e5 + e4 + nb + co := by
  rw [selectRandom_sums d e5 e4 nb co u hd he5 he4 hnb hco]
  constructor
  · intro h
    split_ifs at h with h1 h2 h3 h4 h5
    · exact absurd h (by decide)
    · exact absurd h (by decide)
    · exact absurd h (by decide)
    · exact absurd h (by decide)
    · exact ⟨chain4 hd he5 he4 hnb hu h1 h2 h3 h4, h5.2⟩
    · exact absurd h (by decide)
  · rintro ⟨ha, hb⟩
    rw [if_neg (by rintro ⟨-, hx⟩; linarith), if_neg (by rintro ⟨-, hx⟩; linarith),
      if_neg (by rintro ⟨-, hx⟩; linarith), if_neg (by rintro ⟨-, hx⟩; linarith),
      if_pos ⟨by linarith, hb⟩]

theorem selectRandom_eq_empty_iff (d e5 e4 nb co u : ℚ) (hd : 0 ≤ d) (he5 : 0 ≤ e5)
    (he4 : 0 ≤ e4) (hnb : 0 ≤ nb) (hco : 0 ≤ co) (hu : 0 ≤ u) :
    selectRandomErrorType d e5 e4 nb co u = "" ↔ d + e5 + e4 + nb + co ≤ u := by
  rw [selectRandom_sums d e5 e4 nb co u hd he5 he4 hnb hco]
  constructor
  · intro h
    split_ifs at h with h1 h2 h3 h4 h5
    · exact absurd h (by decide)
    · exact absurd h (by decide)
    · exact absurd h (by decide)
    · exact absurd h (by decide)
    · exact absurd h (by decide)
    · exact chain5 hd he5 he4 hnb hco hu h1 h2 h3 h4 h5
  · intro h
    rw [if_neg (by rintro ⟨-, hx⟩; linarith), if_neg (by rintro ⟨-, hx⟩; linarith),
      if_neg (by rintro ⟨-, hx⟩; linarith), if_neg (by rintro ⟨-, hx⟩; linarith),
      if_neg (by rintro ⟨-, hx⟩; linarith)]

theorem selectForcedErrorType_ne_empty (d e5 e4 nb co u : ℚ)
    (htot : 0 < d + e5 + e4 + nb + co) :
    selectForcedErrorType d e5 e4 nb co u ≠ "" := by
  unfold selectForcedErrorType
  split_ifs with h1 h2 h3 h4 h5 h6 h7 h8 h9 h10 h11
  · exact absurd h1 (not_le.mpr htot)
  all_goals try decide
  exfalso
  simp only [not_lt] at h7 h8 h9 h10 h11
  linarith

theorem maxAllowed_eq_twenty {d e5 e4 nb co : ℚ}
    (hsum : d + e5 + e4 + nb + co = 1 / 5) :
    calculateMaxAllowedSuccessive d e5 e4 nb co = 20 := by
  unfold calculateMaxAllowedSuccessive
  rw [hsum]
  norm_num

theorem maxAllowed_zero_of_zero :
    calculateMaxAllowedSuccessive 0 0 0 0 0 = 0 := by
  norm_num [calculateMaxAllowedSuccessive]

theorem selectForcedErrorType_mem (d e5 e4 nb co u : ℚ) :
    selectForcedErrorType d e5 e4 nb co u = "" ∨
    selectForcedErrorType d e5 e4 nb co u = "disconnect" ∨
    selectForcedErrorType d e5 e4 nb co u = "error500" ∨
    selectForcedErrorType d e5 e4 nb co u = "error400" ∨
    selectForcedErrorType d e5 e4 nb co u = "no_backend" ∨
    selectForcedErrorType d e5 e4 nb co u = "corrupt" := by
  unfold selectForcedErrorType
  split_ifs <;> simp

theorem selectRandomErrorType_mem (d e5 e4 nb co u : ℚ) :
    selectRandomErrorType d e5 e4 nb co u = "" ∨
    selectRandomErrorType d e5 e4 nb co u = "disconnect" ∨
    selectRandomErrorType d e5 e4 nb co u = "error500" ∨
    selectRandomErrorType d e5 e4 nb co u = "error400" ∨
    selectRandomErrorType d e5 e4 nb co u = "no_backend" ∨
    selectRandomErrorType d e5 e4 nb co u = "corrupt" := by
  unfold selectRandomErrorType
  split_ifs <;> simp

theorem decideErrorType_mem (d e5 e4 nb co : ℚ) (fe : Bool) (errs : List String) (u : ℚ) :
    decideErrorType d e5 e4 nb co fe errs u = "" ∨
    decideErrorType d e5 e4 nb co fe errs u = "disconnect" ∨
    decideErrorType d e5 e4 nb co fe errs u = "error500" ∨
    decideErrorType d e5 e4 nb co fe errs u = "error400" ∨
    decideErrorType d e5 e4 nb co fe errs u = "no_backend" ∨
    decideErrorType d e5 e4 nb co fe errs u = "corrupt" := by
  unfold decideErrorType
  split
  · exact selectForcedErrorType_mem d e5 e4 nb co u
  · exact selectRandomErrorType_mem d e5 e4 nb co u

theorem floor_tenth_le (L : ℕ) : (⌊(L : ℚ) * (1 / 10)⌋).toNat ≤ L := by
  rw [Int.toNat_le]
  have hL : (0 : ℚ) ≤ (L : ℚ) := Nat.cast_nonneg L
  calc ⌊(L : ℚ) * (1 / 10)⌋ ≤ ⌊(L : ℚ)⌋ := Int.floor_le_floor (by linarith)
    _ = (L : ℤ) := Int.floor_natCast L

theorem floor_ninetenths_le (L : ℕ) : (⌊(L : ℚ) * (9 / 10)⌋).toNat ≤ L := by
  rw [Int.toNat_le]
  have hL : (0 : ℚ) ≤ (L : ℚ) := Nat.cast_nonneg L
  calc ⌊(L : ℚ) * (9 / 10)⌋ ≤ ⌊(L : ℚ)⌋ := Int.floor_le_floor (by linarith)
    _ = (L : ℤ) := Int.floor_natCast L

theorem corruptMinLength_pos (L : ℕ) : 1 ≤ corruptMinLength L := by
  unfold corruptMinLength
  split <;> omega

theorem corruptMinLength_le (L : ℕ) (hL : 1 ≤ L) : corruptMinLength L ≤ L := by
  unfold corruptMinLength
  split
  · omega
  · exact floor_tenth_le L

theorem corruptMaxLength_le (L : ℕ) (hL : 1 ≤ L) : corruptMaxLength L ≤ L + 1 := by
  unfold corruptMaxLength
  split
  · have h := corruptMinLength_le L hL
    omega
  · have h := floor_ninetenths_le L
    omega

theorem corruptMinLength_lt_max (L : ℕ) : corruptMinLength L < corruptMaxLength L := by
  unfold corruptMaxLength
  split <;> omega

/-! ### Claims -/

/-- Claim C1: for every configuration of five probabilities,
`calculateMaxAllowedSuccessive` returns 0 when the sum of the five
probabilities is at most 0, returns 1 when the sum is at least 1, and
otherwise returns the integer truncation of 5 divided by the sum clamped
into the range [5, 20]; in particular it maps sum 0 to 0, sum 1.5 to 1,
sum 0.01 to 20 and sum 0.5 to 10. -/
theorem C1_maxAllowedStreak_formula (d e5 e4 nb co : ℚ) :
    (d + e5 + e4 + nb + co ≤ 0 → calculateMaxAllowedSuccessive d e5 e4 nb co = 0) ∧
    (1 ≤ d + e5 + e4 + nb + co → calculateMaxAllowedSuccessive d e5 e4 nb co = 1) ∧
    (0 < d + e5 + e4 + nb + co → d + e5 + e4 + nb + co < 1 →
      calculateMaxAllowedSuccessive d e5 e4 nb co =
        min 20 (max 5 ⌊(5 : ℚ) / (d + e5 + e4 + nb + co)⌋)) ∧
    calculateMaxAllowedSuccessive 0 0 0 0 0 = 0 ∧
    calculateMaxAllowedSuccessive 1.5 0 0 0 0 = 1 ∧
    calculateMaxAllowedSuccessive 0.01 0 0 0 0 = 20 ∧
    calculateMaxAllowedSuccessive 0.5 0 0 0 0 = 10 := by
  refine ⟨?_, ?_, ?_, ?_, ?_, ?_, ?_⟩
  · intro h
    unfold calculateMaxAllowedSuccessive
    rw [if_pos h]
  · intro h
    unfold calculateMaxAllowedSuccessive
    rw [if_neg (by linarith), if_pos h]
  · intro h0 h1
    unfold calculateMaxAllowedSuccessive
    rw [if_neg (by linarith), if_neg (by linarith)]
    split_ifs with h2 h3 <;> omega
  · norm_num [calculateMaxAllowedSuccessive]
  · norm_num [calculateMaxAllowedSuccessive]
  · norm_num [calculateMaxAllowedSuccessive]
  · norm_num [calculateMaxAllowedSuccessive]

/-- Witness for C1: the clamped-truncation case at a configuration whose
probabilities sum to 0.5. -/
theorem C1_maxAllowedStreak_witness :
    calculateMaxAllowedSuccessive 0.1 0.1 0.1 0.1 0.1 =
      min 20 (max 5 ⌊(5 : ℚ) / (0.1 + 0.1 + 0.1 + 0.1 + 0.1)⌋) :=
  (C1_maxAllowedStreak_formula 0.1 0.1 0.1 0.1 0.1).2.2.1 (by norm_num) (by norm_num)

/-- Claim C4: in the probabilistic selection step the kinds are evaluated in
the fixed order disconnect, error-500, error-400, no-backend, corrupt with a
running cumulative probability, and a kind fires iff the draw is strictly
below the new cumulative total and no earlier kind fired (equivalently, the
draw falls in that kind's half-open cumulative interval); consequently with
disconnect = error500 = 0.6 and a draw in [0,1), error500 fires exactly on
the draws in [0.6, 1) — effective probability 0.4, not 0.6 — and if no
cumulative threshold exceeds the draw, no fault fires. -/
theorem C4_cumulative_selection (d e5 e4 nb co u : ℚ) (hd : 0 ≤ d) (he5 : 0 ≤ e5)
    (he4 : 0 ≤ e4) (hnb : 0 ≤ nb) (hco : 0 ≤ co) (hu : 0 ≤ u) (hu1 : u < 1) :
    (selectRandomErrorType d e5 e4 nb co u = "disconnect" ↔ u < d) ∧
    (selectRandomErrorType d e5 e4 nb co u = "error500" ↔ d ≤ u ∧ u < d + e5) ∧
    (selectRandomErrorType d e5 e4 nb co u = "error400" ↔
      d + e5 ≤ u ∧ u < d + e5 + e4) ∧
    (selectRandomErrorType d e5 e4 nb co u = "no_backend" ↔
      d + e5 + e4 ≤ u ∧ u < d + e5 + e4 + nb) ∧
    (selectRandomErrorType d e5 e4 nb co u = "corrupt" ↔
      d + e5 + e4 + nb ≤ u ∧ u < d + e5 + e4 + nb + co) ∧
    (selectRandomErrorType d e5 e4 nb co u = "" ↔ d + e5 + e4 + nb + co ≤ u) ∧
    (selectRandomErrorType 0.6 0.6 0 0 0 u = "error500" ↔ 0.6 ≤ u) ∧
    (selectRandomErrorType 0.6 0.6 0 0 0 u = "disconnect" ↔ u < 0.6) := by
  refine ⟨selectRandom_eq_disconnect_iff d e5 e4 nb co u hd he5 he4 hnb hco hu,
    selectRandom_eq_error500_iff d e5 e4 nb co u hd he5 he4 hnb hco hu,
    selectRandom_eq_error400_iff d e5 e4 nb co u hd he5 he4 hnb hco hu,
    selectRandom_eq_noBackend_iff d e5 e4 nb co u hd he5 he4 hnb hco hu,
    selectRandom_eq_corrupt_iff d e5 e4 nb co u hd he5 he4 hnb hco hu,
    selectRandom_eq_empty_iff d e5 e4 nb co u hd he5 he4 hnb hco hu, ?_, ?_⟩
  · rw [selectRandom_eq_error500_iff 0.6 0.6 0 0 0 u (by norm_num) (by norm_num)
      (by norm_num) (by norm_num) (by norm_num) hu]
    constructor
    · exact fun h => h.1
    · exact fun h => ⟨h, by linarith⟩
  · rw [selectRandom_eq_disconnect_iff 0.6 0.6 0 0 0 u (by norm_num) (by norm_num)
      (by norm_num) (by norm_num) (by norm_num) hu]

/-- Witness for C4 at a concrete configuration and draw: the draw 1/2 falls
in the cumulative interval of error-400. -/
theorem C4_cumulative_selection_witness :
    selectRandomErrorType (1/4) (1/4) (1/4) (1/8) (1/8) (1/2) = "error400" := by
  have h := (C4_cumulative_selection (1/4) (1/4) (1/4) (1/8) (1/8) (1/2) (by norm_num)
    (by norm_num) (by norm_num) (by norm_num) (by norm_num) (by norm_num) (by norm_num)).2.2.1
  exact h.mpr (by norm_num)

/-- Claim C6: with all five probabilities 0 every decision is no-fault,
whatever the forceErrors flag, the window contents and the random draw;
in particular `calculateMaxAllowedSuccessive` is 0, which disables the
override. -/
theorem C6_all_zero_probabilities_no_fault (fe : Bool) (errs : List String) (u : ℚ) :
    decideErrorType 0 0 0 0 0 fe errs u = "" ∧
    calculateMaxAllowedSuccessive 0 0 0 0 0 = 0 := by
  refine ⟨?_, maxAllowed_zero_of_zero⟩
  simp [decideErrorType, maxAllowed_zero_of_zero, selectRandomErrorType, cumAdd]

/-- Claim C8: a request whose method is neither GET nor POST is rejected
with 405 before the decision engine runs and leaves the statistics state
completely unchanged. -/
theorem C8_method_rejected_no_mutation (method : String) (d e5 e4 nb co : ℚ)
    (fe : Bool) (ws : ℕ) (stats : ErrorStats) (u : ℚ)
    (hg : method ≠ "GET") (hp : method ≠ "POST") :
    proxyRequest method d e5 e4 nb co fe ws stats u =
      (ProxyOutcome.methodNotAllowed, stats) := by
  unfold proxyRequest
  rw [if_pos ⟨hg, hp⟩]

/-- Witness for C8: a PUT request is rejected and the initial state is
untouched. -/
theorem C8_method_rejected_witness :
    proxyRequest "PUT" 0 0 0 0 0 true 100 initialStats 0 =
      (ProxyOutcome.methodNotAllowed, initialStats) :=
  C8_method_rejected_no_mutation "PUT" 0 0 0 0 0 true 100 initialStats 0
    (by decide) (by decide)

/-- Claim C9: for every non-empty response body length the corrupt
transform's truncated length lies between 1 and the original length, so
the slice `responseBody[:truncatedLength]` is always in bounds. -/
theorem C9_corrupt_truncation_bounds (L r : ℕ) (hL : 0 < L) :
    1 ≤ corruptTruncatedLength L r ∧ corruptTruncatedLength L r ≤ L := by
  have hmin1 := corruptMinLength_pos L
  have hminle := corruptMinLength_le L hL
  have hmaxle := corruptMaxLength_le L hL
  have hlt := corruptMinLength_lt_max L
  have hmod : r % (corruptMaxLength L - corruptMinLength L) <
      corruptMaxLength L - corruptMinLength L := Nat.mod_lt r (by omega)
  unfold corruptTruncatedLength
  rw [if_pos hlt]
  omega

/-- Witness for C9 at body length 10 and seed 3. -/
theorem C9_corrupt_truncation_witness :
    1 ≤ corruptTruncatedLength 10 3 ∧ corruptTruncatedLength 10 3 ≤ 10 :=
  C9_corrupt_truncation_bounds 10 3 (by norm_num)

/-- Claim C10: the accounting invariant — total requests equal success count
plus the five per-kind fault counts — is preserved by every admitted
request, because each decision is exactly one of the five fault labels or
the empty no-fault label. -/
theorem C10_request_accounting (d e5 e4 nb co : ℚ) (fe : Bool) (ws : ℕ)
    (stats : ErrorStats) (u : ℚ) (h : statsInvariant stats) :
    statsInvariant (proxyStep d e5 e4 nb co fe ws stats u) := by
  unfold statsInvariant at h ⊢
  unfold proxyStep
  rw [updateErrorRates_total, updateErrorRates_successCount,
    updateErrorRates_disconnectCount, updateErrorRates_error500Count,
    updateErrorRates_error400Count, updateErrorRates_noBackendCount,
    updateErrorRates_corruptCount]
  rcases decideErrorType_mem d e5 e4 nb co fe stats.recentErrors u with
    h1 | h1 | h1 | h1 | h1 | h1 <;>
    rw [h1] <;> simp [updateErrorStats] <;> omega

/-- Witness for C10: the invariant holds in the initial state and after one
request from it. -/
theorem C10_request_accounting_witness :
    statsInvariant (proxyStep 0 0 0 0 0 false 100 initialStats 0) :=
  C10_request_accounting 0 0 0 0 0 false 100 initialStats 0 rfl

/-- The statistics state after the very first admitted request from the
initial state, with forceErrors on and each of the five probabilities 1/25
(sum 0.2) and draw 0: the initial all-empty window makes the override fire,
and the forced fault is written at slot `1 % 100 = 1`. -/
def statsAfterFirstForced : ErrorStats :=
  proxyStep (1/25) (1/25) (1/25) (1/25) (1/25) true 100 initialStats 0

/-- Counterexample to claim C2: with forceErrors on and the probabilities
summing to 0.2, immediately after the first decision (itself a forced
fault, written at slot 1) the streak measured by
`countSuccessiveNoErrors` is 98, far above the computed maximum of 20,
because the scan runs from the end of the window array rather than from
the slot of the most recent write. -/
theorem C2_streak_bound_counterexample :
    countSuccessiveNoErrors statsAfterFirstForced.recentErrors = 98 ∧
    ¬ countSuccessiveNoErrors statsAfterFirstForced.recentErrors ≤ 20 := by
  have hmax : calculateMaxAllowedSuccessive (1/25) (1/25) (1/25) (1/25) (1/25) = 20 :=
    maxAllowed_eq_twenty (by norm_num)
  have hcount : countSuccessiveNoErrors initialStats.recentErrors = 100 := by decide
  have hdec : decideErrorType (1/25) (1/25) (1/25) (1/25) (1/25) true
      initialStats.recentErrors 0 = "disconnect" := by
    unfold decideErrorType
    rw [if_pos ⟨rfl, by rw [hmax, hcount]; norm_num, by rw [hmax]; norm_num⟩]
    norm_num [selectForcedErrorType, cumAdd]
  have herrs : statsAfterFirstForced.recentErrors =
      (List.replicate 100 "").set 1 "disconnect" := by
    rw [statsAfterFirstForced, proxyStep_recentErrors, hdec]
    decide
  rw [herrs]
  decide

/-- Claim C2 (amended): with forceErrors on and the five probabilities
summing to 0.2, whenever the streak measured by `countSuccessiveNoErrors`
has reached the computed maximum of 20 at decision time, the decision is
forced to be a fault (never the no-fault label); the original claim's bound
on the streak immediately *after* a decision does not hold, because the
write lands at slot `Total % windowSize` while the streak scan starts at
the end of the array. -/
theorem C2_forced_error_at_threshold (d e5 e4 nb co u : ℚ) (errs : List String)
    (hsum : d + e5 + e4 + nb + co = 1 / 5)
    (hstreak : 20 ≤ countSuccessiveNoErrors errs) :
    decideErrorType d e5 e4 nb co true errs u ≠ "" := by
  have hmax := maxAllowed_eq_twenty hsum
  unfold decideErrorType
  rw [if_pos ⟨rfl, by rw [hmax]; exact_mod_cast hstreak, by rw [hmax]; norm_num⟩]
  exact selectForcedErrorType_ne_empty d e5 e4 nb co u (by rw [hsum]; norm_num)

/-- Witness for the amended C2 at a concrete configuration, window and
draw. -/
theorem C2_forced_error_witness :
    decideErrorType (1/25) (1/25) (1/25) (1/25) (1/25) true
      (List.replicate 20 "") 0 ≠ "" :=
  C2_forced_error_at_threshold (1/25) (1/25) (1/25) (1/25) (1/25) 0
    (List.replicate 20 "") (by norm_num) (by decide)

/-- Window state reached from a freshly reset 2-slot window by two admitted
requests: first a no-fault decision (all probabilities 0), then an
error-500 decision (error500 probability 1, draw 0); the second write
lands at slot `2 % 2 = 0`, not at the end of the array. -/
def twoStepState : ErrorStats :=
  proxyStep 0 1 0 0 0 false 2 (proxyStep 0 0 0 0 0 false 2 (resetStats 2) 0) 0

/-- Counterexample to claim C3: in the reachable state whose window is
`["error500", ""]` with newest write at slot 0, `countSuccessiveNoErrors`
returns 1 (the trailing empty slot of the array, an *older* slot), while
scanning backward from the newest slot as the claim describes
(`recentStreakSpec`) returns 0. -/
theorem C3_scan_origin_counterexample :
    countSuccessiveNoErrors twoStepState.recentErrors = 1 ∧
    recentStreakSpec twoStepState 2 = 0 ∧
    countSuccessiveNoErrors twoStepState.recentErrors ≠ recentStreakSpec twoStepState 2 := by
  have h1 : decideErrorType 0 0 0 0 0 false (resetStats 2).recentErrors 0 = "" := by
    rw [decideErrorType_not_forced]
    norm_num [selectRandomErrorType, cumAdd]
  have hs1errs : (proxyStep 0 0 0 0 0 false 2 (resetStats 2) 0).recentErrors = ["", ""] := by
    rw [proxyStep_recentErrors, h1]
    decide
  have hs1total : (proxyStep 0 0 0 0 0 false 2 (resetStats 2) 0).total = 1 := by
    rw [proxyStep_total]
    decide
  have h2 : decideErrorType 0 1 0 0 0 false
      (proxyStep 0 0 0 0 0 false 2 (resetStats 2) 0).recentErrors 0 = "error500" := by
    rw [decideErrorType_not_forced]
    norm_num [selectRandomErrorType, cumAdd]
  have hs2errs : twoStepState.recentErrors = ["error500", ""] := by
    rw [twoStepState, proxyStep_recentErrors, h2, hs1errs, hs1total]
    decide
  have hs2total : twoStepState.total = 2 := by
    rw [twoStepState, proxyStep_total, hs1total]
  have ha : countSuccessiveNoErrors twoStepState.recentErrors = 1 := by
    rw [hs2errs]
    decide
  have hb : recentStreakSpec twoStepState 2 = 0 := by
    unfold recentStreakSpec
    rw [hs2errs, hs2total]
    decide
  exact ⟨ha, hb, by rw [ha, hb]; decide⟩

/-- Claim C3 (amended): `countSuccessiveNoErrors` returns the length of the
run of consecutive no-fault slots at the *end of the window array* — it
scans backward from the array's last index until a fault slot or the array
start is hit; equivalently, the window splits as a prefix whose last slot
(if any) is a fault, followed by exactly that many no-fault slots.  It
does not scan from the slot of the most recently assigned ordinal, so it
coincides with the claimed behaviour only when the most recent write
landed at the last index. -/
theorem C3_trailing_run_characterization (errs : List String) :
    ∃ pre, errs = pre ++ List.replicate (countSuccessiveNoErrors errs) "" ∧
      (pre = [] ∨ pre.getLast? ≠ some "") := by
  obtain ⟨suf, h1, h2⟩ := countNoErrorsFromEnd_split errs.reverse
  refine ⟨suf.reverse, ?_, ?_⟩
  · have h3 := congrArg List.reverse h1
    simpa [countSuccessiveNoErrors] using h3
  · rcases h2 with h2 | h2
    · left
      simp [h2]
    · right
      rw [List.getLast?_reverse]
      exact h2

/-- The statistics state after one admitted request with error500
probability 1/2 and draw 0 (an error-500 decision recorded at slot 1). -/
def statsAfterOne500 : ErrorStats :=
  proxyStep 0 (1/2) 0 0 0 false 100 initialStats 0

/-- Counterexample to claim C5: changing the window size from 100 to 50
reallocates the slots but does not zero the ordinal, the per-kind counts
or the recent-total denominator — after one error-500 request and a resize,
`total`, `error500Count` and `recentTotal` are all still 1. -/
theorem C5_resize_counterexample :
    (applyConfigUpdate 100 50 statsAfterOne500).total = 1 ∧
    (applyConfigUpdate 100 50 statsAfterOne500).total ≠ 0 ∧
    (applyConfigUpdate 100 50 statsAfterOne500).error500Count = 1 ∧
    (applyConfigUpdate 100 50 statsAfterOne500).recentTotal = 1 ∧
    (applyConfigUpdate 100 50 statsAfterOne500).recentErrors = List.replicate 50 "" := by
  have hdec : decideErrorType 0 (1/2) 0 0 0 false initialStats.recentErrors 0 = "error500" := by
    rw [decideErrorType_not_forced]
    norm_num [selectRandomErrorType, cumAdd]
  have htot : statsAfterOne500.total = 1 := by
    rw [statsAfterOne500, proxyStep_total]
    decide
  have h500 : statsAfterOne500.error500Count = 1 := by
    rw [statsAfterOne500]
    unfold proxyStep
    rw [updateErrorRates_error500Count, hdec]
    rfl
  have hrt : statsAfterOne500.recentTotal = 1 := by
    rw [statsAfterOne500]
    unfold proxyStep
    rw [updateErrorRates_recentTotal, updateErrorStats_total]
    decide
  have happ : applyConfigUpdate 100 50 statsAfterOne500 =
      { statsAfterOne500 with recentErrors := List.replicate 50 "" } := by
    unfold applyConfigUpdate
    rw [if_pos (by decide)]
  rw [happ]
  exact ⟨htot, by rw [htot]; decide, h500, hrt, rfl⟩

/-- Claim C5 (amended): when a configuration update changes the window
size, the slot window is reallocated to the new size with every slot
cleared — all recorded labels are discarded — but nothing else changes:
the ordinal (total), the per-kind counts, the stored rates and the
recent-total denominator are left exactly as they were, so `currentRates`
does not reflect 0 requests observed. -/
theorem C5_resize_reallocates_window_only (oldWs newWs : ℕ) (stats : ErrorStats)
    (h : oldWs ≠ newWs) :
    applyConfigUpdate oldWs newWs stats =
      { stats with recentErrors := List.replicate newWs "" } := by
  unfold applyConfigUpdate
  rw [if_pos h]

/-- Witness for the amended C5: resizing 100 to 50 on the initial state. -/
theorem C5_resize_witness :
    applyConfigUpdate 100 50 initialStats =
      { initialStats with recentErrors := List.replicate 50 "" } :=
  C5_resize_reallocates_window_only 100 50 initialStats (by decide)

/-- Counterexample to claim C7: after a reset with window size 100 the
streak function `countSuccessiveNoErrors` returns 100, not 0 — the freshly
cleared slots carry the no-fault label and are indistinguishable from
genuine no-fault decisions. -/
theorem C7_reset_streak_counterexample :
    countSuccessiveNoErrors (resetStats 100).recentErrors = 100 ∧
    countSuccessiveNoErrors (resetStats 100).recentErrors ≠ 0 := by
  decide

/-- Claim C7 (amended): for every prior statistics state, reset replaces
the whole record: it clears all slots to the no-fault label, zeroes the
ordinal, all per-kind counts, the stored rates and the recent total, and
keeps the configured window size (the new window has `windowSize` slots);
however the streak function then returns `windowSize` — every cleared slot
counts as no-fault — not 0. -/
theorem C7_reset_state (ws : ℕ) :
    (resetStats ws).total = 0 ∧
    (resetStats ws).successCount = 0 ∧
    (resetStats ws).disconnectCount = 0 ∧
    (resetStats ws).error500Count = 0 ∧
    (resetStats ws).error400Count = 0 ∧
    (resetStats ws).noBackendCount = 0 ∧
    (resetStats ws).corruptCount = 0 ∧
    (resetStats ws).currentRates = ⟨0, 0, 0, 0, 0⟩ ∧
    (resetStats ws).recentTotal = 0 ∧
    (resetStats ws).recentErrors = List.replicate ws "" ∧
    countSuccessiveNoErrors (resetStats ws).recentErrors = ws := by
  refine ⟨rfl, rfl, rfl, rfl, rfl, rfl, rfl, rfl, rfl, rfl, ?_⟩
  exact countSuccessiveNoErrors_replicate ws

end BadProxy
